import Mathlib

/-!
Verification development for the OpenTune music-import pipeline.

Shallow embedding of the pipeline's TypeScript sources:
  * `scripts/import-music/storageUploader.ts` (asset migrator),
  * the orchestrator script (`main`, `batchCheckExisting`, `batchWriteTracks`),
  * the provider adapters `ccmixter.ts`, `musicbrainz.ts`, `fetchDiscogs`,
  * the migration utility converting gs:// references to HTTPS URLs.

External I/O (HTTP fetches, object-store uploads, Firestore reads) is
modelled by explicit oracle functions passed as arguments; a network call
that would throw is modelled by the oracle returning `none` (or an explicit
error outcome).  Pure control flow, constants, string formats and state
updates are translated directly from the source.
-/

namespace OpenTune

/-- The normalized track record shape (`TrackRecord` in `types.ts`,
fields as constructed by the adapters via `sanitizeTrack({...})` and as
consumed by `storageUploader.ts`: `id`, `title`, `artist`, `artistId`,
`album`, `albumId`, `duration`, `artwork`, `audioUrl`, `genre`, `license`). -/
structure TrackRecord where
  id : String
  title : String
  artist : String
  artistId : String
  album : String
  albumId : String
  duration : Int
  artwork : String
  audioUrl : String
  genre : String
  license : String
deriving Repr, DecidableEq

/-! ## storageUploader.ts -/

/-- `const MAX_RETRIES = 2` (storageUploader.ts line 8). -/
def MAX_RETRIES : Nat := 2

/-- `const RETRY_DELAY_MS = 2000` (storageUploader.ts line 9). -/
def RETRY_DELAY_MS : Nat := 2000

/-- `const CONCURRENCY = 5` (storageUploader.ts line 7). -/
def CONCURRENCY : Nat := 5

/-- `String.startsWith`, written on the character list so that concrete
instances reduce inside the kernel (core's `String.substrEq` is defined
by well-founded recursion and does not). -/
def strStartsWith (s pre : String) : Bool := pre.toList.isPrefixOf s.toList

/-- Oracle for one `downloadFile` + `uploadToStorage` pair inside
`downloadAndUpload`: given the source URL, storage path, content type and
the attempt number, it returns `some gsPath` when both calls succeed
(the value `uploadToStorage` returns) and `none` when either throws. -/
abbrev AssetEnv := String → String → String → Nat → Option String

/-- Result of `downloadAndUpload`, instrumented with the number of
attempts made and the list of delays passed to `sleep` between attempts. -/
structure DUResult where
  url : String
  attemptsMade : Nat
  delays : List Nat
deriving Repr, DecidableEq

/-- The retry loop of `downloadAndUpload` (storageUploader.ts lines 60-72):
`for (let attempt = 0; attempt <= MAX_RETRIES; attempt++)`; on success the
uploaded path is returned; on failure with `attempt < MAX_RETRIES` the loop
sleeps `RETRY_DELAY_MS * (attempt + 1)` and retries, otherwise it returns
the original `sourceUrl`.  `remaining` is `MAX_RETRIES - attempt`. -/
def duLoop (env1 : Nat → Option String) (sourceUrl : String) :
    Nat → Nat → DUResult
  | attempt, 0 =>
    match env1 attempt with
    | some gsPath => ⟨gsPath, attempt + 1, []⟩
    | none => ⟨sourceUrl, attempt + 1, []⟩
  | attempt, r + 1 =>
    match env1 attempt with
    | some gsPath => ⟨gsPath, attempt + 1, []⟩
    | none =>
      let rest := duLoop env1 sourceUrl (attempt + 1) r
      ⟨rest.url, rest.attemptsMade, RETRY_DELAY_MS * (attempt + 1) :: rest.delays⟩

/-- `downloadAndUpload` (storageUploader.ts lines 54-74): runs the retry
loop starting at attempt `0` with `MAX_RETRIES` retries remaining. -/
def downloadAndUpload (env : AssetEnv)
    (sourceUrl storagePath contentType : String) : DUResult :=
  duLoop (env sourceUrl storagePath contentType) sourceUrl 0 MAX_RETRIES

/-- `getSource` (storageUploader.ts lines 14-17): the part of the track id
before the first dash, or `"unknown"` when the dash is absent or leading. -/
def getSource (trackId : String) : String :=
  match trackId.toList.findIdx? (fun c => c = '-') with
  | some d => if d > 0 then String.mk (trackId.toList.take d) else "unknown"
  | none => "unknown"

/-- `processTrack` (storageUploader.ts lines 79-101): relocates `audioUrl`
and `artwork` when they start with `"http"`, leaving every other field of
the track unchanged. -/
def processTrack (env : AssetEnv) (track : TrackRecord) : TrackRecord :=
  let source := getSource track.id
  let trackId := track.id
  let audioUrl :=
    if strStartsWith track.audioUrl "http" then
      (downloadAndUpload env track.audioUrl
        ("imports/" ++ source ++ "/" ++ trackId ++ ".mp3") "audio/mpeg").url
    else track.audioUrl
  let artwork :=
    if strStartsWith track.artwork "http" then
      (downloadAndUpload env track.artwork
        ("imports/" ++ source ++ "/" ++ trackId ++ "_cover.jpg") "image/jpeg").url
    else track.artwork
  { track with audioUrl := audioUrl, artwork := artwork }

/-- The chunked loop of `uploadAllTrackAssets` (storageUploader.ts lines
118-133), written with an explicit fuel so that it is structural (the
fuel is the list length, which bounds the number of iterations): slices
of `CONCURRENCY` tracks are processed and their results pushed onto
`results` in order. -/
def uploadChunksLoop (env : AssetEnv) :
    Nat → List TrackRecord → List TrackRecord
  | 0, _ => []
  | _, [] => []
  | fuel + 1, t :: rest =>
    ((t :: rest).take CONCURRENCY).map (processTrack env)
      ++ uploadChunksLoop env fuel ((t :: rest).drop CONCURRENCY)

/-- The chunked loop of `uploadAllTrackAssets`, at its full fuel. -/
def uploadChunks (env : AssetEnv) (ts : List TrackRecord) : List TrackRecord :=
  uploadChunksLoop env ts.length ts

/-- `uploadAllTrackAssets` (storageUploader.ts lines 107-137): returns the
input list unchanged when it is empty, else the chunked processing. -/
def uploadAllTrackAssets (env : AssetEnv) (tracks : List TrackRecord) :
    List TrackRecord :=
  if tracks.length = 0 then tracks else uploadChunks env tracks

theorem duLoop_attempts_le (env1 : Nat → Option String) (s : String) :
    ∀ r a, (duLoop env1 s a r).attemptsMade ≤ a + r + 1 := by
  intro r
  induction r with
  | zero =>
    intro a
    cases h : env1 a <;> simp [duLoop, h]
  | succ r ih =>
    intro a
    cases h : env1 a with
    | some v => simp [duLoop, h]
    | none =>
      simp only [duLoop, h]
      have := ih (a + 1)
      omega

theorem duLoop_delays_len (env1 : Nat → Option String) (s : String) :
    ∀ r a, (duLoop env1 s a r).delays.length ≤ r := by
  intro r
  induction r with
  | zero =>
    intro a
    cases h : env1 a <;> simp [duLoop, h]
  | succ r ih =>
    intro a
    cases h : env1 a with
    | some v => simp [duLoop, h]
    | none =>
      simp only [duLoop, h, List.length_cons]
      have := ih (a + 1)
      omega

theorem duLoop_delays_get (env1 : Nat → Option String) (s : String) :
    ∀ r a i, i < (duLoop env1 s a r).delays.length →
      (duLoop env1 s a r).delays[i]? = some (RETRY_DELAY_MS * (a + 1 + i)) := by
  intro r
  induction r with
  | zero =>
    intro a i hi
    exfalso
    cases h : env1 a <;> simp [duLoop, h] at hi
  | succ r ih =>
    intro a i hi
    cases h : env1 a with
    | some v => simp [duLoop, h] at hi
    | none =>
      simp only [duLoop, h] at hi ⊢
      cases i with
      | zero => simp
      | succ i =>
        simp only [List.getElem?_cons_succ]
        have hlen : i < (duLoop env1 s (a + 1) r).delays.length := by
          simpa using hi
        have hrec := ih (a + 1) i hlen
        have harith : a + 1 + 1 + i = a + 1 + (i + 1) := by omega
        rw [hrec, harith]

theorem duLoop_allfail_url (env1 : Nat → Option String) (s : String) :
    ∀ r a, (∀ k, env1 k = none) → (duLoop env1 s a r).url = s := by
  intro r
  induction r with
  | zero =>
    intro a hfail
    simp [duLoop, hfail a]
  | succ r ih =>
    intro a hfail
    simp [duLoop, hfail a, ih (a + 1) hfail]

theorem processTrack_allfail (env : AssetEnv) (t : TrackRecord)
    (hfail : ∀ u q c a, env u q c a = none) : processTrack env t = t := by
  unfold processTrack
  have h1 : ∀ u q c, (downloadAndUpload env u q c).url = u := by
    intro u q c
    exact duLoop_allfail_url (env u q c) u MAX_RETRIES 0 (fun k => hfail u q c k)
  cases t
  simp only [h1]
  split <;> split <;> rfl

theorem uploadChunksLoop_eq_map (env : AssetEnv) :
    ∀ fuel ts, ts.length ≤ fuel →
      uploadChunksLoop env fuel ts = ts.map (processTrack env) := by
  intro fuel
  induction fuel with
  | zero =>
    intro ts h
    have : ts = [] := List.eq_nil_of_length_eq_zero (Nat.le_zero.mp h)
    subst this
    simp [uploadChunksLoop]
  | succ fuel ih =>
    intro ts h
    cases ts with
    | nil => simp [uploadChunksLoop]
    | cons t rest =>
      rw [uploadChunksLoop]
      have hle : ((t :: rest).drop CONCURRENCY).length ≤ fuel := by
        simp only [List.length_drop, List.length_cons, CONCURRENCY]
        simp only [List.length_cons] at h
        omega
      rw [ih _ hle, ← List.map_append, List.take_append_drop]

theorem uploadChunks_eq_map (env : AssetEnv) (ts : List TrackRecord) :
    uploadChunks env ts = ts.map (processTrack env) :=
  uploadChunksLoop_eq_map env ts.length ts (Nat.le_refl _)

theorem uploadAllTrackAssets_eq_map (env : AssetEnv) (ts : List TrackRecord) :
    uploadAllTrackAssets env ts = ts.map (processTrack env) := by
  unfold uploadAllTrackAssets
  split
  · cases ts with
    | nil => simp
    | cons t rest => simp_all
  · exact uploadChunks_eq_map env ts

theorem processTrack_id (env : AssetEnv) (t : TrackRecord) :
    (processTrack env t).id = t.id := by
  cases t
  rfl

/-! ## Orchestrator: batchCheckExisting and the dedup filter -/

/-- `const CHUNK = 100` inside `batchCheckExisting`. -/
def DEDUP_CHUNK : Nat := 100

/-- The durable catalog is modelled as the list of track ids already
present in the `tracks` collection; `snap.exists` for the ref of `id` is
`catalog.contains id` and `snap.id` is `id`. -/
abbrev Catalog := List String

/-- One `db.getAll(...refs)` call for a chunk of ids: the ids of the
snapshots that exist (the ids added to the `existing` set). -/
def bulkLookup (catalog : Catalog) (chunk : List String) : List String :=
  chunk.filter (fun id => catalog.contains id)

/-- The loop of `batchCheckExisting` (orchestrator lines 123-133),
written with an explicit fuel so that it is structural (the fuel is the
id-list length, which bounds the number of iterations): it slices the id
list into consecutive chunks of `CHUNK = 100` ids, issues one bulk
lookup per chunk, and accumulates the existing ids. -/
def batchCheckExistingLoop (catalog : Catalog) :
    Nat → List String → List String
  | 0, _ => []
  | _, [] => []
  | fuel + 1, x :: xs =>
    bulkLookup catalog ((x :: xs).take DEDUP_CHUNK)
      ++ batchCheckExistingLoop catalog fuel ((x :: xs).drop DEDUP_CHUNK)

/-- `batchCheckExisting` (orchestrator lines 116-136). -/
def batchCheckExisting (catalog : Catalog) (ids : List String) :
    List String :=
  batchCheckExistingLoop catalog ids.length ids

/-- The chunks the id list is sliced into by `batchCheckExisting`
(`ids.slice(i, i + CHUNK)` for `i = 0, 100, 200, ...`), with the same
fuel convention. -/
def dedupChunksLoop : Nat → List String → List (List String)
  | 0, _ => []
  | _, [] => []
  | fuel + 1, x :: xs =>
    (x :: xs).take DEDUP_CHUNK :: dedupChunksLoop fuel ((x :: xs).drop DEDUP_CHUNK)

/-- The chunks the id list is sliced into by `batchCheckExisting`. -/
def dedupChunks (ids : List String) : List (List String) :=
  dedupChunksLoop ids.length ids

/-- Number of `db.getAll` calls performed by `batchCheckExisting` on an
id list: one per loop iteration (same fuel convention). -/
def numBulkLookupsLoop : Nat → List String → Nat
  | 0, _ => 0
  | _, [] => 0
  | fuel + 1, x :: xs => 1 + numBulkLookupsLoop fuel ((x :: xs).drop DEDUP_CHUNK)

/-- Number of `db.getAll` calls performed by `batchCheckExisting`. -/
def numBulkLookups (ids : List String) : Nat :=
  numBulkLookupsLoop ids.length ids

/-- The existing-id set computed for a track list (orchestrator lines
63-65): `batchCheckExisting(db, allTracks.map(t => t.id))`. -/
def existingIdsFor (catalog : Catalog) (allTracks : List TrackRecord) :
    List String :=
  batchCheckExisting catalog (allTracks.map (fun t => t.id))

/-- The dedup filter (orchestrator line 67):
`allTracks.filter(t => !existingIds.has(t.id))`. -/
def filterNewTracks (catalog : Catalog) (allTracks : List TrackRecord) :
    List TrackRecord :=
  allTracks.filter
    (fun t => !((existingIdsFor catalog allTracks).contains t.id))

theorem batchCheckExistingLoop_eq_filter (catalog : Catalog) :
    ∀ fuel ids, ids.length ≤ fuel →
      batchCheckExistingLoop catalog fuel ids
        = ids.filter (fun i => catalog.contains i) := by
  intro fuel
  induction fuel with
  | zero =>
    intro ids h
    have : ids = [] := List.eq_nil_of_length_eq_zero (Nat.le_zero.mp h)
    subst this
    simp [batchCheckExistingLoop]
  | succ fuel ih =>
    intro ids h
    cases ids with
    | nil => simp [batchCheckExistingLoop]
    | cons x xs =>
      rw [batchCheckExistingLoop]
      have hle : ((x :: xs).drop DEDUP_CHUNK).length ≤ fuel := by
        simp only [List.length_drop, List.length_cons, DEDUP_CHUNK]
        simp only [List.length_cons] at h
        omega
      rw [ih _ hle]
      unfold bulkLookup
      rw [← List.filter_append, List.take_append_drop]

theorem batchCheckExisting_eq_filter (catalog : Catalog) (ids : List String) :
    batchCheckExisting catalog ids = ids.filter (fun i => catalog.contains i) :=
  batchCheckExistingLoop_eq_filter catalog ids.length ids (Nat.le_refl _)

theorem dedupChunksLoop_join :
    ∀ fuel (ids : List String), ids.length ≤ fuel →
      (dedupChunksLoop fuel ids).flatten = ids := by
  intro fuel
  induction fuel with
  | zero =>
    intro ids h
    have : ids = [] := List.eq_nil_of_length_eq_zero (Nat.le_zero.mp h)
    subst this
    simp [dedupChunksLoop]
  | succ fuel ih =>
    intro ids h
    cases ids with
    | nil => simp [dedupChunksLoop]
    | cons x xs =>
      rw [dedupChunksLoop]
      have hle : ((x :: xs).drop DEDUP_CHUNK).length ≤ fuel := by
        simp only [List.length_drop, List.length_cons, DEDUP_CHUNK]
        simp only [List.length_cons] at h
        omega
      simp only [List.flatten_cons, ih _ hle, List.take_append_drop]

theorem dedupChunks_join (ids : List String) : (dedupChunks ids).flatten = ids :=
  dedupChunksLoop_join ids.length ids (Nat.le_refl _)

theorem dedupChunksLoop_length_le :
    ∀ fuel (ids : List String), ids.length ≤ fuel →
      ∀ c ∈ dedupChunksLoop fuel ids, 0 < c.length ∧ c.length ≤ DEDUP_CHUNK := by
  intro fuel
  induction fuel with
  | zero =>
    intro ids h
    have : ids = [] := List.eq_nil_of_length_eq_zero (Nat.le_zero.mp h)
    subst this
    simp [dedupChunksLoop]
  | succ fuel ih =>
    intro ids h
    cases ids with
    | nil => simp [dedupChunksLoop]
    | cons x xs =>
      rw [dedupChunksLoop]
      intro c hc
      have hle : ((x :: xs).drop DEDUP_CHUNK).length ≤ fuel := by
        simp only [List.length_drop, List.length_cons, DEDUP_CHUNK]
        simp only [List.length_cons] at h
        omega
      rcases List.mem_cons.mp hc with hhd | htl
      · subst hhd
        constructor
        · simp [DEDUP_CHUNK]
        · simp only [List.length_take]
          omega
      · exact ih _ hle c htl

theorem dedupChunks_length_le (ids : List String) :
    ∀ c ∈ dedupChunks ids, 0 < c.length ∧ c.length ≤ DEDUP_CHUNK :=
  dedupChunksLoop_length_le ids.length ids (Nat.le_refl _)

theorem numBulkLookupsLoop_eq :
    ∀ fuel (ids : List String), ids.length ≤ fuel →
      numBulkLookupsLoop fuel ids = (dedupChunksLoop fuel ids).length := by
  intro fuel
  induction fuel with
  | zero =>
    intro ids h
    have : ids = [] := List.eq_nil_of_length_eq_zero (Nat.le_zero.mp h)
    subst this
    simp [numBulkLookupsLoop, dedupChunksLoop]
  | succ fuel ih =>
    intro ids h
    cases ids with
    | nil => simp [numBulkLookupsLoop, dedupChunksLoop]
    | cons x xs =>
      rw [numBulkLookupsLoop, dedupChunksLoop]
      have hle : ((x :: xs).drop DEDUP_CHUNK).length ≤ fuel := by
        simp only [List.length_drop, List.length_cons, DEDUP_CHUNK]
        simp only [List.length_cons] at h
        omega
      simp only [List.length_cons, ih _ hle]
      omega

theorem numBulkLookups_eq (ids : List String) :
    numBulkLookups ids = (dedupChunks ids).length :=
  numBulkLookupsLoop_eq ids.length ids (Nat.le_refl _)

theorem mem_batchCheckExisting (catalog : Catalog) (ids : List String)
    (x : String) :
    x ∈ batchCheckExisting catalog ids ↔ x ∈ ids ∧ x ∈ catalog := by
  rw [batchCheckExisting_eq_filter]
  simp [List.mem_filter, List.contains_iff_exists_mem_beq, beq_iff_eq]

theorem not_mem_filterNewTracks (catalog : Catalog)
    (allTracks : List TrackRecord) (t : TrackRecord)
    (hmem : t ∈ allTracks) (hcat : t.id ∈ catalog) :
    t ∉ filterNewTracks catalog allTracks := by
  intro habs
  have hfilter := List.of_mem_filter habs
  have hex : t.id ∈ existingIdsFor catalog allTracks := by
    unfold existingIdsFor
    rw [mem_batchCheckExisting]
    exact ⟨List.mem_map_of_mem _ hmem, hcat⟩
  simp only [Bool.not_eq_true] at hfilter
  have hc : (existingIdsFor catalog allTracks).contains t.id = true := by
    rw [List.contains_iff_exists_mem_beq]
    exact ⟨t.id, hex, by simp⟩
  rw [hc] at hfilter
  exact Bool.noConfusion hfilter

/-! ## Adapter rotation (ccmixter.ts, musicbrainz.ts, fetchDiscogs)

Each adapter stores a rotation index and, per run, selects the partitions
at `(index + s) % partitionCount` for `s < partitionsPerRun`, then saves
`(index + partitionsPerRun) % partitionCount` as the next index
(ccmixter.ts lines 63-68 and 138-150, musicbrainz.ts lines 58-63 and
136-148, `fetchDiscogs` lines 250-256 and 321-330). -/

/-- `const CONTENT_TYPES = ['opsample', 'remix', 'cover']` (ccmixter.ts). -/
def CONTENT_TYPES : List String := ["opsample", "remix", "cover"]

/-- `const typesToFetch = 2` in `fetchCCMixter` (ccmixter.ts line 64). -/
def ccmixterTypesToFetch : Nat := 2

/-- `const TAG_FILTERS = [...]` (musicbrainz.ts lines 11-14). -/
def TAG_FILTERS : List String :=
  ["rock", "metal", "electronic", "hip-hop", "experimental",
   "indie", "pop", "jazz", "folk", "ambient"]

/-- `const tagsToFetch = 2` in `fetchMusicBrainz` (musicbrainz.ts line 59). -/
def mbTagsToFetch : Nat := 2

/-- `const SEARCHES = [...]` in the Discogs adapter. -/
def SEARCHES : List String :=
  ["genre:rock year:[2010 TO 2026] type:release",
   "genre:electronic year:[2010 TO 2026] type:release",
   "genre:hip-hop year:[2010 TO 2026] type:release",
   "genre:pop year:[2010 TO 2026] type:release",
   "genre:metal year:[2010 TO 2026] type:release"]

/-- `const searchesToFetch = 2` in `fetchDiscogs` (line 251). -/
def discogsSearchesToFetch : Nat := 2

/-- The partition index selected at step `s` of a run whose stored rotation
index is `idx`: `(state.contentTypeIndex + ct) % CONTENT_TYPES.length`
(and the analogous expressions in the other adapters). -/
def partitionIndexForStep (P idx s : Nat) : Nat := (idx + s) % P

/-- The rotation index saved at the end of a run:
`(state.contentTypeIndex + typesToFetch) % CONTENT_TYPES.length`. -/
def nextRotationIndex (P idx n : Nat) : Nat := (idx + n) % P

/-- The stored rotation index after `k` consecutive runs, starting from
the stored index `i0` (each run advances the index by `n` modulo `P`). -/
def rotationAt (P n i0 : Nat) : Nat → Nat
  | 0 => i0
  | k + 1 => nextRotationIndex P (rotationAt P n i0 k) n

theorem rotationAt_mod (P n i0 : Nat) :
    ∀ k, rotationAt P n i0 k % P = (i0 + k * n) % P := by
  intro k
  induction k with
  | zero => simp [rotationAt]
  | succ k ih =>
    show (rotationAt P n i0 k + n) % P % P = (i0 + (k + 1) * n) % P
    rw [Nat.mod_mod_of_dvd _ dvd_rfl, Nat.add_mod, ih, ← Nat.add_mod]
    congr 1
    ring

theorem exists_offset_mod (P i0 p : Nat) (hp : p < P) :
    ∃ t, t < P ∧ (i0 + t) % P = p := by
  have hP : 0 < P := by omega
  refine ⟨(p + P - i0 % P) % P, Nat.mod_lt _ hP, ?_⟩
  rw [Nat.add_mod, Nat.mod_mod_of_dvd _ dvd_rfl, ← Nat.add_mod]
  have hr : i0 % P < P := Nat.mod_lt _ hP
  have hdm := Nat.div_add_mod i0 P
  have hx : i0 + (p + P - i0 % P) = P * (i0 / P) + p + P := by omega
  rw [hx, Nat.add_mod_right, Nat.mul_add_mod, Nat.mod_eq_of_lt hp]

/-- C3: for every adapter that selects the partitions at indices
`(idx + s) % P` for `s < n` each run and then advances the stored rotation
index to `(idx + n) % P` (the pattern of `fetchCCMixter`,
`fetchMusicBrainz` and `fetchDiscogs`): for every starting index `i0`,
after any `R` consecutive runs with `R * n ≥ P`, every partition index
`p < P` is selected in at least one of those runs. -/
theorem claim_C3_rotation_coverage (P n i0 R : Nat) (hn : 0 < n)
    (hcov : P ≤ R * n) :
    ∀ p, p < P → ∃ k, k < R ∧ ∃ s, s < n ∧
      partitionIndexForStep P (rotationAt P n i0 k) s = p := by
  intro p hp
  obtain ⟨t, htP, ht⟩ := exists_offset_mod P i0 p hp
  have htR : t < R * n := lt_of_lt_of_le htP hcov
  refine ⟨t / n, ?_, t % n, Nat.mod_lt _ hn, ?_⟩
  · exact Nat.div_lt_of_lt_mul (by rwa [Nat.mul_comm] at htR)
  · unfold partitionIndexForStep
    rw [Nat.add_mod, rotationAt_mod, ← Nat.add_mod]
    have hdm := Nat.div_add_mod t n
    have hx : i0 + t / n * n + t % n = i0 + t := by
      rw [Nat.mul_comm]
      omega
    rw [hx, ht]

/-- Witness for C3 at the ccMixter constants: partition count `P = 3`
(`CONTENT_TYPES.length`), `n = 2` partitions per run, starting index `5`,
`R = 2` runs (`2 * 2 ≥ 3`), partition `p = 2`. -/
theorem claim_C3_rotation_coverage_witness :
    ∃ k, k < 2 ∧ ∃ s, s < 2 ∧
      partitionIndexForStep 3 (rotationAt 3 2 5 k) s = 2 :=
  claim_C3_rotation_coverage 3 2 5 2 (by decide) (by decide) 2 (by decide)

/-! ## Per-partition fetch handling in the adapters -/

/-- Result of an adapter: `{ sourceName, tracks, errors }`
(`SourceResult` in `types.ts`). -/
structure SourceResult where
  sourceName : String
  tracks : List TrackRecord
  errors : List String
deriving Repr, DecidableEq

/-- Outcome of one partition page request, as classified by the adapter
loop body: `httpError` is `!response.ok`, `page` is a parsed records
array, and `netError` is an exception thrown by `fetch`, `response.json()`
or the processing of the page (caught by the partition's `try/catch`). -/
inductive FetchOutcome (α : Type)
  | httpError (status : Nat)
  | page (records : List α)
  | netError (msg : String)
deriving Repr, DecidableEq

/-- Mutable per-run adapter state: the partition-to-offset map (reads
default to `0`, as in `state.offsetByType[contentType] || 0`), the
within-run `seen` id set, and the accumulating `tracks` and `errors`. -/
structure AdapterAcc where
  offsets : String → Nat
  seen : List String
  tracks : List TrackRecord
  errors : List String

/-- JavaScript `a || b` on strings: the empty string is falsy. -/
def jsOr (a b : String) : String := if a = "" then b else a

/-! ### ccmixter.ts -/

/-- `const PAGE_SIZE = 50` (ccmixter.ts line 7). -/
def ccmixterPageSize : Nat := 50

/-- A raw ccMixter record as consumed by the transform loop (absent
optional fields modelled as the empty string / zero). -/
structure CCRaw where
  id : String
  upload_id : String
  name : String
  artist : String
  artist_id : String
  duration : Int
  imagesLarge : String
  imagesMedium : String
deriving Repr, DecidableEq

/-- The per-record transform loop of `fetchCCMixter` (ccmixter.ts lines
94-127): skips records without `name` or `artist`, requires artwork,
de-duplicates by id within the run, and pushes the sanitized record. -/
def ccmixterTransform (san : TrackRecord → TrackRecord) (contentType : String) :
    List CCRaw → List String → List TrackRecord →
      List String × List TrackRecord
  | [], seen, tracks => (seen, tracks)
  | r :: rs, seen, tracks =>
    if r.name = "" || r.artist = "" then
      ccmixterTransform san contentType rs seen tracks
    else
      let audioUrl := "https://ccmixter.org/4download/file/" ++ r.upload_id
      let artwork := jsOr r.imagesLarge r.imagesMedium
      if artwork = "" then ccmixterTransform san contentType rs seen tracks
      else
        let id := "ccmixter-" ++ r.id
        if seen.contains id then ccmixterTransform san contentType rs seen tracks
        else
          ccmixterTransform san contentType rs (seen ++ [id])
            (tracks ++ [san
              { id := id, title := r.name, artist := r.artist,
                artistId := "ccmixter-" ++ r.artist_id,
                album := contentType ++ " Collection",
                albumId := "ccmixter-" ++ contentType,
                duration := r.duration, artwork := artwork,
                audioUrl := audioUrl,
                genre := if contentType = "opsample" then "Sample"
                         else contentType,
                license := "Creative Commons" }])

/-- One iteration of the partition loop of `fetchCCMixter` (ccmixter.ts
lines 65-135) for a pre-selected `contentType` and the classified outcome
of its page request: HTTP failure records an error string and moves on;
an empty page resets the partition's offset to `0`; a non-empty page is
transformed and the offset advanced by `PAGE_SIZE`; a thrown exception
records an error string. -/
def ccmixterStep (san : TrackRecord → TrackRecord) (acc : AdapterAcc)
    (contentType : String) (resp : FetchOutcome CCRaw) : AdapterAcc :=
  let offset := acc.offsets contentType
  match resp with
  | .httpError status =>
    { acc with errors :=
        acc.errors ++ ["HTTP " ++ toString status ++ " on type " ++ contentType] }
  | .netError msg =>
    { acc with errors := acc.errors ++ [contentType ++ ": " ++ msg] }
  | .page [] =>
    { acc with offsets := fun q => if q = contentType then 0 else acc.offsets q }
  | .page (r :: rs) =>
    let st := ccmixterTransform san contentType (r :: rs) acc.seen acc.tracks
    { acc with
        seen := st.1
        tracks := st.2
        offsets := fun q =>
          if q = contentType then offset + ccmixterPageSize
          else acc.offsets q }

/-- Persistent ccMixter adapter state (`CCMixterState` in ccmixter.ts):
rotation index plus the partition-to-offset map. -/
structure CCMixterState where
  contentTypeIndex : Nat
  offsetByType : String → Nat

/-- `fetchCCMixter` (ccmixter.ts lines 39-154): selects two content types
by rotation, performs one page request per type at that type's stored
offset (the request outcome given by the oracle `env`), and saves the
advanced rotation index and updated offsets.  The returned pair is the
`SourceResult` and the saved state. -/
def fetchCCMixter (san : TrackRecord → TrackRecord) (state : CCMixterState)
    (env : String → Nat → FetchOutcome CCRaw) :
    SourceResult × CCMixterState :=
  let acc0 : AdapterAcc := ⟨state.offsetByType, [], [], []⟩
  let t0 := CONTENT_TYPES[(state.contentTypeIndex + 0) % CONTENT_TYPES.length]!
  let acc1 := ccmixterStep san acc0 t0 (env t0 (acc0.offsets t0))
  let t1 := CONTENT_TYPES[(state.contentTypeIndex + 1) % CONTENT_TYPES.length]!
  let acc2 := ccmixterStep san acc1 t1 (env t1 (acc1.offsets t1))
  (⟨"ccmixter", acc2.tracks, acc2.errors⟩,
   ⟨nextRotationIndex CONTENT_TYPES.length state.contentTypeIndex
      ccmixterTypesToFetch,
    acc2.offsets⟩)

/-! ### musicbrainz.ts -/

/-- `const PAGE_SIZE = 100` (musicbrainz.ts line 7). -/
def mbPageSize : Nat := 100

/-- A release attached to a MusicBrainz recording. -/
structure MBRelease where
  relId : String
  relTitle : String
  images : List String
deriving Repr, DecidableEq

/-- A raw MusicBrainz recording.  `artistCredit = none` models an absent
`artist-credit` field.  A page containing a record with
`artist-credit: []` throws in the source when indexing `[0]`; such a page
is represented at the response level as `FetchOutcome.netError`, so this
transform is only applied to pages it processes faithfully. -/
structure MBRaw where
  mbId : String
  title : String
  artistCredit : Option (List (String × String))
  releases : List MBRelease
  lengthMs : Option Nat
deriving Repr, DecidableEq

/-- `Math.round(recording.length / 1000)` for a non-zero length. -/
def jsRoundDiv1000 (ms : Nat) : Nat := (ms + 500) / 1000

/-- The per-record transform loop of `fetchMusicBrainz` (musicbrainz.ts
lines 88-125). -/
def mbTransform (san : TrackRecord → TrackRecord) (tag : String) :
    List MBRaw → List String → List TrackRecord →
      List String × List TrackRecord
  | [], seen, tracks => (seen, tracks)
  | r :: rs, seen, tracks =>
    match r.artistCredit with
    | none => mbTransform san tag rs seen tracks
    | some acs =>
      if r.title = "" then mbTransform san tag rs seen tracks
      else
        let artwork :=
          match r.releases.head? with
          | none => ""
          | some rel => rel.images.headD ""
        if artwork = "" then mbTransform san tag rs seen tracks
        else
          let id := "musicbrainz-" ++ r.mbId
          if seen.contains id then mbTransform san tag rs seen tracks
          else
            mbTransform san tag rs (seen ++ [id])
              (tracks ++ [san
                { id := id, title := r.title,
                  artist := String.intercalate ", " (acs.map (fun ac => ac.2)),
                  artistId := "musicbrainz-" ++ ((acs.head?.map
                    (fun ac => ac.1)).getD ""),
                  album := jsOr ((r.releases.head?.map
                    (fun rel => rel.relTitle)).getD "") "Unknown Album",
                  albumId := "musicbrainz-" ++ ((r.releases.head?.map
                    (fun rel => rel.relId)).getD ""),
                  duration :=
                    match r.lengthMs with
                    | none => 0
                    | some l => if l = 0 then 0 else jsRoundDiv1000 l,
                  artwork := artwork, audioUrl := "", genre := tag,
                  license := "Various (MusicBrainz Open Data)" }])

/-- One iteration of the tag loop of `fetchMusicBrainz` (musicbrainz.ts
lines 60-133), mirroring `ccmixterStep` with tag-specific error strings
and `PAGE_SIZE = 100`. -/
def mbStep (san : TrackRecord → TrackRecord) (acc : AdapterAcc)
    (tag : String) (resp : FetchOutcome MBRaw) : AdapterAcc :=
  let offset := acc.offsets tag
  match resp with
  | .httpError status =>
    { acc with errors :=
        acc.errors ++ ["HTTP " ++ toString status ++ " on tag " ++ tag] }
  | .netError msg =>
    { acc with errors := acc.errors ++ [tag ++ ": " ++ msg] }
  | .page [] =>
    { acc with offsets := fun q => if q = tag then 0 else acc.offsets q }
  | .page (r :: rs) =>
    let st := mbTransform san tag (r :: rs) acc.seen acc.tracks
    { acc with
        seen := st.1
        tracks := st.2
        offsets := fun q =>
          if q = tag then offset + mbPageSize
          else acc.offsets q }

/-- Persistent MusicBrainz adapter state (`MBState` in musicbrainz.ts). -/
structure MBState where
  tagIndex : Nat
  offsetByTag : String → Nat

/-- `fetchMusicBrainz` (musicbrainz.ts lines 34-152): two tags per run by
rotation, one page request per tag at its stored offset. -/
def fetchMusicBrainz (san : TrackRecord → TrackRecord) (state : MBState)
    (env : String → Nat → FetchOutcome MBRaw) : SourceResult × MBState :=
  let acc0 : AdapterAcc := ⟨state.offsetByTag, [], [], []⟩
  let t0 := TAG_FILTERS[(state.tagIndex + 0) % TAG_FILTERS.length]!
  let acc1 := mbStep san acc0 t0 (env t0 (acc0.offsets t0))
  let t1 := TAG_FILTERS[(state.tagIndex + 1) % TAG_FILTERS.length]!
  let acc2 := mbStep san acc1 t1 (env t1 (acc1.offsets t1))
  (⟨"musicbrainz", acc2.tracks, acc2.errors⟩,
   ⟨nextRotationIndex TAG_FILTERS.length state.tagIndex mbTagsToFetch,
    acc2.offsets⟩)

/-! ### The Discogs adapter (`fetchDiscogs`) -/

/-- `const PAGE_SIZE = 50` in the Discogs adapter. -/
def discogsPageSize : Nat := 50

/-- A raw Discogs search result: `artists` entries are `(name, id)`
pairs; absent optional fields are the empty string / empty list. -/
structure DiscogsRaw where
  id : String
  title : String
  artists : List (String × String)
  genres : List String
  styles : List String
  thumb : String
deriving Repr, DecidableEq

/-- The per-result transform loop of `fetchDiscogs` (lines 282-311):
skips results without `title` or `thumb`, de-duplicates by id within the
run, and pushes the sanitized record. -/
def discogsTransform (san : TrackRecord → TrackRecord) :
    List DiscogsRaw → List String → List TrackRecord →
      List String × List TrackRecord
  | [], seen, tracks => (seen, tracks)
  | r :: rs, seen, tracks =>
    if r.title = "" || r.thumb = "" then discogsTransform san rs seen tracks
    else
      let artist := jsOr ((r.artists.head?.map (fun a => a.1)).getD "")
        "Unknown Artist"
      let artistId := (r.artists.head?.map (fun a => a.2)).getD ""
      let genre := jsOr (r.genres.headD "")
        (jsOr (r.styles.headD "") "Miscellaneous")
      let id := "discogs-" ++ r.id
      if seen.contains id then discogsTransform san rs seen tracks
      else
        discogsTransform san rs (seen ++ [id])
          (tracks ++ [san
            { id := id, title := r.title, artist := artist,
              artistId := "discogs-" ++ artistId,
              album := r.title, albumId := "discogs-" ++ r.id,
              duration := 0, artwork := r.thumb, audioUrl := "",
              genre := genre,
              license := "Various (Discogs Metadata)" }])

/-- One iteration of the search loop of `fetchDiscogs` (lines 252-319)
for a pre-selected search string and the classified outcome of its page
request, mirroring `ccmixterStep` with search-specific error strings. -/
def discogsStep (san : TrackRecord → TrackRecord) (acc : AdapterAcc)
    (search : String) (resp : FetchOutcome DiscogsRaw) : AdapterAcc :=
  let offset := acc.offsets search
  match resp with
  | .httpError status =>
    { acc with errors :=
        acc.errors ++
          ["HTTP " ++ toString status ++ " on search \"" ++ search ++ "\""] }
  | .netError msg =>
    { acc with errors :=
        acc.errors ++ ["Search \"" ++ search ++ "\": " ++ msg] }
  | .page [] =>
    { acc with offsets := fun q => if q = search then 0 else acc.offsets q }
  | .page (r :: rs) =>
    let st := discogsTransform san (r :: rs) acc.seen acc.tracks
    { acc with
        seen := st.1
        tracks := st.2
        offsets := fun q =>
          if q = search then offset + discogsPageSize
          else acc.offsets q }

/-- Persistent Discogs adapter state (`DiscogsState`). -/
structure DiscogsState where
  searchIndex : Nat
  offsetBySearch : String → Nat

/-- `fetchDiscogs` (lines 217-338): when `DISCOGS_TOKEN` is absent the
adapter returns immediately with no tracks and the single error
`"DISCOGS_TOKEN not set"`, issuing no request; otherwise it rotates
through two searches, issuing one page request per search (the page
number is `Math.floor(offset / PAGE_SIZE) + 1`).  The third component of
the result lists the `(search, page)` requests issued. -/
def fetchDiscogs (san : TrackRecord → TrackRecord) (token : Option String)
    (state : DiscogsState) (env : String → Nat → FetchOutcome DiscogsRaw) :
    SourceResult × DiscogsState × List (String × Nat) :=
  match token with
  | none =>
    (⟨"discogs", [], ["DISCOGS_TOKEN not set"]⟩, state, [])
  | some _ =>
    let acc0 : AdapterAcc := ⟨state.offsetBySearch, [], [], []⟩
    let s0 := SEARCHES[(state.searchIndex + 0) % SEARCHES.length]!
    let page0 := acc0.offsets s0 / discogsPageSize + 1
    let acc1 := discogsStep san acc0 s0 (env s0 page0)
    let s1 := SEARCHES[(state.searchIndex + 1) % SEARCHES.length]!
    let page1 := acc1.offsets s1 / discogsPageSize + 1
    let acc2 := discogsStep san acc1 s1 (env s1 page1)
    (⟨"discogs", acc2.tracks, acc2.errors⟩,
     ⟨nextRotationIndex SEARCHES.length state.searchIndex
        discogsSearchesToFetch,
      acc2.offsets⟩,
     [(s0, page0), (s1, page1)])

/-! ## The orchestrator (`main`, `batchWriteTracks`) -/

/-- Modelled from the spec: `validateTrack` lives in the repository's
`utils.ts`, which is not under `src/`.  Per the spec, validation drops
records failing basic invariants — missing `id`/`title`/`artist` or a
negative duration — and (per the §4.1 mandatory-fields rule and the §8
scenario, where an item with no audio and no artwork is dropped by
validation) records with neither an audio reference nor artwork. -/
def validateTrack (t : TrackRecord) : Bool :=
  !t.id.isEmpty && !t.title.isEmpty && !t.artist.isEmpty &&
    decide (0 ≤ t.duration) && (!t.audioUrl.isEmpty || !t.artwork.isEmpty)

/-- Per-source run counters (`ImportStats` in `types.ts`, as filled in by
`main`). -/
structure ImportStats where
  source : String
  fetched : Nat
  newTracks : Nat
  skippedDuplicates : Nat
  errors : Nat
deriving Repr, DecidableEq

/-- `const BATCH_SIZE = 500` (orchestrator line 8). -/
def BATCH_SIZE : Nat := 500

/-- The chunks committed by `batchWriteTracks` (orchestrator lines
138-160): consecutive groups of at most `BATCH_SIZE` tracks, one atomic
`batch.commit()` per group (fuel convention as above). -/
def writeBatchesLoop : Nat → List TrackRecord → List (List TrackRecord)
  | 0, _ => []
  | _, [] => []
  | fuel + 1, t :: ts =>
    (t :: ts).take BATCH_SIZE :: writeBatchesLoop fuel ((t :: ts).drop BATCH_SIZE)

/-- The chunks committed by `batchWriteTracks`. -/
def writeBatches (tracks : List TrackRecord) : List (List TrackRecord) :=
  writeBatchesLoop tracks.length tracks

/-- Durable side effects of one orchestrator run: an
`uploadAllTrackAssets` invocation (asset uploads) or a
`batchWriteTracks` invocation (Firestore writes), each carrying the track
list passed to it. -/
inductive MainEffect
  | uploadAssetsCall (tracks : List TrackRecord)
  | batchWriteCall (tracks : List TrackRecord)
deriving Repr, DecidableEq

/-- Result of one orchestrator run: the per-source stats, the list handed
to the write stage, and the durable effects performed. -/
structure MainResult where
  stats : ImportStats
  tracksToWrite : List TrackRecord
  effects : List MainEffect

/-- The `sourcePrefixMap` lookup of the orchestrator (lines 74-78):
`sourcePrefixMap[stat.source] || stat.source`. -/
def sourcePrefixOf (source : String) : String :=
  if source = "jamendo" then "jamendo-" else source

/-- The orchestrator `main` (lines 10-114) for one fulfilled source
result: in dry-run mode `services` is `null`, so the existing-id check is
skipped (`existingIds = new Set()`), `uploadAllTrackAssets` is not called
and `batchWriteTracks` is not called; in live mode the dedup check runs
against the catalog, assets are uploaded for a non-empty new-track list,
and the result is written in batches.  The fetch, validation and
dedup-filter stages run in both modes. -/
def mainRun (dryRun : Bool) (catalog : Catalog) (sr : SourceResult)
    (env : AssetEnv) : MainResult :=
  let valid := sr.tracks.filter validateTrack
  let allTracks := valid
  let existing :=
    if dryRun then []
    else existingIdsFor catalog allTracks
  let newTracks := allTracks.filter (fun t => !(existing.contains t.id))
  let pre := sourcePrefixOf sr.sourceName
  let sourceTracks := allTracks.filter (fun t => strStartsWith t.id pre)
  let sourceNew := newTracks.filter (fun t => strStartsWith t.id pre)
  let stats : ImportStats :=
    { source := sr.sourceName
      fetched := sr.tracks.length
      newTracks := sourceNew.length
      skippedDuplicates := sourceTracks.length - sourceNew.length
      errors := sr.errors.length }
  let tracksToWrite :=
    if dryRun then newTracks
    else if newTracks.length > 0 then uploadAllTrackAssets env newTracks
    else newTracks
  let uploadEffects : List MainEffect :=
    if dryRun then []
    else if newTracks.length > 0 then [.uploadAssetsCall newTracks]
    else []
  let writeEffects : List MainEffect :=
    if dryRun then []
    else if tracksToWrite.length > 0 then [.batchWriteCall tracksToWrite]
    else []
  { stats := stats, tracksToWrite := tracksToWrite,
    effects := uploadEffects ++ writeEffects }

/-! ## The migration utility (gs:// references to HTTPS URLs) -/

/-- `MigrationStats` of the migration utility. -/
structure MigrationStats where
  total : Nat
  migrated : Nat
  skipped : Nat
  failed : Nat
  failedIds : List String
deriving Repr, DecidableEq

/-- A track document as read by the migration utility:
`(data.artwork as string) || ''` and `(data.audioUrl as string) || ''`. -/
structure TrackDoc where
  docId : String
  artwork : String
  audioUrl : String
deriving Repr, DecidableEq

/-- The per-document body of the migration utility's scan loop (utility
lines 109-160).  `conv` is the oracle for `gsToHttps`: `some url` when the
conversion succeeds, `none` when it returns `null` (missing file, bad URL
or a thrown error).  The second component is `some updates` exactly when
`doc.ref.update(updates)` is executed, and `none` when the Firestore
document is left unmodified. -/
def migrateDoc (isDryRun : Bool) (conv : String → Option String)
    (doc : TrackDoc) (stats : MigrationStats) :
    MigrationStats × Option (List (String × String)) :=
  let stats := { stats with total := stats.total + 1 }
  let artworkNeedsFix := strStartsWith doc.artwork "gs://"
  let audioNeedsFix := strStartsWith doc.audioUrl "gs://"
  if !artworkNeedsFix && !audioNeedsFix then
    ({ stats with skipped := stats.skipped + 1 }, none)
  else if isDryRun then
    ({ stats with migrated := stats.migrated + 1 }, none)
  else if artworkNeedsFix then
    match conv doc.artwork with
    | none =>
      ({ stats with
          failed := stats.failed + 1
          failedIds := stats.failedIds ++ [doc.docId] }, none)
    | some u =>
      if audioNeedsFix then
        match conv doc.audioUrl with
        | none =>
          ({ stats with
              failed := stats.failed + 1
              failedIds := stats.failedIds ++ [doc.docId] }, none)
        | some u2 =>
          ({ stats with migrated := stats.migrated + 1 },
           some [("artwork", u), ("audioUrl", u2)])
      else
        ({ stats with migrated := stats.migrated + 1 }, some [("artwork", u)])
  else
    match conv doc.audioUrl with
    | none =>
      ({ stats with
          failed := stats.failed + 1
          failedIds := stats.failedIds ++ [doc.docId] }, none)
    | some u2 =>
      ({ stats with migrated := stats.migrated + 1 }, some [("audioUrl", u2)])

/-! ## Claim theorems -/

/-- A concrete sample track with external (http) references, used to
instantiate witnesses. -/
def sampleTrack : TrackRecord :=
  { id := "jamendo-1", title := "T", artist := "A", artistId := "jamendo-a",
    album := "Al", albumId := "jamendo-al", duration := 120,
    artwork := "http://img/1.jpg", audioUrl := "http://audio/1.mp3",
    genre := "rock", license := "CC" }

/-- A concrete sample track with no external references. -/
def gsTrack : TrackRecord :=
  { id := "jamendo-2", title := "T2", artist := "A2", artistId := "jamendo-a2",
    album := "Al", albumId := "jamendo-al", duration := 0,
    artwork := "gs://bucket/imports/jamendo/jamendo-2_cover.jpg",
    audioUrl := "", genre := "rock", license := "CC" }

/-- C1: in a `downloadAndUpload` call in which every download/upload
attempt fails, the original source URL is returned rather than an error
being thrown; consequently every track passes through
`uploadAllTrackAssets` unchanged (original external references kept, same
position in the returned list), and the orchestrator still hands the
dedup-filtered records to the batch writer. -/
theorem claim_C1_asset_fallback (env : AssetEnv)
    (hfail : ∀ u q c a, env u q c a = none) :
    (∀ s p c, (downloadAndUpload env s p c).url = s) ∧
    (∀ ts : List TrackRecord, uploadAllTrackAssets env ts = ts) ∧
    (∀ catalog sr,
      (mainRun false catalog sr env).tracksToWrite
        = filterNewTracks catalog (sr.tracks.filter validateTrack)) := by
  have hurl : ∀ s p c, (downloadAndUpload env s p c).url = s := fun s p c =>
    duLoop_allfail_url (env s p c) s MAX_RETRIES 0 (fun k => hfail s p c k)
  have hid : ∀ ts : List TrackRecord, uploadAllTrackAssets env ts = ts := by
    intro ts
    rw [uploadAllTrackAssets_eq_map]
    have hpt : ∀ t, processTrack env t = t := fun t =>
      processTrack_allfail env t hfail
    calc ts.map (processTrack env) = ts.map id := List.map_congr_left
          (fun t _ => hpt t)
      _ = ts := List.map_id ts
  refine ⟨hurl, hid, ?_⟩
  intro catalog sr
  have hnew : (mainRun false catalog sr env).tracksToWrite
      = (if (filterNewTracks catalog (sr.tracks.filter validateTrack)).length > 0
         then uploadAllTrackAssets env
           (filterNewTracks catalog (sr.tracks.filter validateTrack))
         else filterNewTracks catalog (sr.tracks.filter validateTrack)) := rfl
  rw [hnew]
  split
  · exact hid _
  · rfl

/-- Witness for C1: with an oracle failing every attempt, an http source
URL is returned unchanged and a concrete track passes through
`uploadAllTrackAssets` untouched. -/
theorem claim_C1_asset_fallback_witness :
    (downloadAndUpload (fun _ _ _ _ => none) "http://audio/1.mp3"
      "imports/jamendo/jamendo-1.mp3" "audio/mpeg").url = "http://audio/1.mp3" ∧
    uploadAllTrackAssets (fun _ _ _ _ => none) [sampleTrack] = [sampleTrack] :=
  ⟨(claim_C1_asset_fallback (fun _ _ _ _ => none)
      (fun _ _ _ _ => rfl)).1 _ _ _,
   (claim_C1_asset_fallback (fun _ _ _ _ => none)
      (fun _ _ _ _ => rfl)).2.1 _⟩

/-- C5: for every asset reference, `downloadAndUpload` makes at most
`MAX_RETRIES` (= 2) attempts beyond the first, so at most 3 in total; the
delay slept after the n-th failed attempt (1-based) is
`n * RETRY_DELAY_MS`, linearly increasing. -/
theorem claim_C5_retry_policy (env : AssetEnv) (s p c : String) :
    MAX_RETRIES = 2 ∧
    (downloadAndUpload env s p c).attemptsMade ≤ MAX_RETRIES + 1 ∧
    (downloadAndUpload env s p c).delays.length ≤ MAX_RETRIES ∧
    (∀ i, i < (downloadAndUpload env s p c).delays.length →
      (downloadAndUpload env s p c).delays[i]?
        = some ((i + 1) * RETRY_DELAY_MS)) := by
  refine ⟨rfl, ?_, ?_, ?_⟩
  · have h := duLoop_attempts_le (env s p c) s MAX_RETRIES 0
    simpa [downloadAndUpload] using h
  · exact duLoop_delays_len (env s p c) s MAX_RETRIES 0
  · intro i hi
    have h := duLoop_delays_get (env s p c) s MAX_RETRIES 0 i hi
    unfold downloadAndUpload
    rw [h]
    congr 1
    ring

/-- Witness for C5: with every attempt failing, three attempts are made
and the first sleep is `1 * RETRY_DELAY_MS`. -/
theorem claim_C5_retry_policy_witness :
    (downloadAndUpload (fun _ _ _ _ => none) "u" "p" "c").attemptsMade
        ≤ MAX_RETRIES + 1 ∧
    (downloadAndUpload (fun _ _ _ _ => none) "u" "p" "c").delays[0]?
        = some ((0 + 1) * RETRY_DELAY_MS) :=
  ⟨(claim_C5_retry_policy (fun _ _ _ _ => none) "u" "p" "c").2.1,
   (claim_C5_retry_policy (fun _ _ _ _ => none) "u" "p" "c").2.2.2 0
     (by decide)⟩

/-- C10: `uploadAllTrackAssets` returns one output track per input track,
in order, each output being `processTrack` of the corresponding input;
`processTrack` changes at most `audioUrl` and `artwork`, and returns a
track with neither reference starting with "http" entirely unchanged. -/
theorem claim_C10_upload_frame (env : AssetEnv) (ts : List TrackRecord)
    (t : TrackRecord) :
    uploadAllTrackAssets env ts = ts.map (processTrack env) ∧
    (processTrack env t).id = t.id ∧
    (processTrack env t).title = t.title ∧
    (processTrack env t).artist = t.artist ∧
    (processTrack env t).artistId = t.artistId ∧
    (processTrack env t).album = t.album ∧
    (processTrack env t).albumId = t.albumId ∧
    (processTrack env t).duration = t.duration ∧
    (processTrack env t).genre = t.genre ∧
    (processTrack env t).license = t.license ∧
    (strStartsWith t.audioUrl "http" = false →
      strStartsWith t.artwork "http" = false → processTrack env t = t) := by
  obtain ⟨i, ti, a, ai, al, ali, d, aw, au, g, l⟩ := t
  refine ⟨uploadAllTrackAssets_eq_map env ts, rfl, rfl, rfl, rfl, rfl, rfl,
    rfl, rfl, rfl, ?_⟩
  intro h1 h2
  simp only [processTrack]
  rw [if_neg (by simp_all), if_neg (by simp_all)]

/-- Witness for C10: a track with a gs:// artwork and empty audio URL is
returned unchanged. -/
theorem claim_C10_upload_frame_witness :
    processTrack (fun _ _ _ _ => none) gsTrack = gsTrack :=
  (claim_C10_upload_frame (fun _ _ _ _ => none) [] gsTrack
    ).2.2.2.2.2.2.2.2.2.2 (by decide) (by decide)

/-- C2: `batchCheckExisting` slices the candidate ids into consecutive
chunks of at most 100 (jointly re-forming the id list), issues one bulk
existence lookup per chunk, and the orchestrator's filter
`allTracks.filter(t => !existingIds.has(t.id))` excludes every candidate
whose id is present in the durable catalog. -/
theorem claim_C2_dedup_completeness (catalog : Catalog)
    (allTracks : List TrackRecord) (t : TrackRecord) :
    (dedupChunks (allTracks.map (fun x => x.id))).flatten
        = allTracks.map (fun x => x.id) ∧
    (∀ c ∈ dedupChunks (allTracks.map (fun x => x.id)),
        0 < c.length ∧ c.length ≤ DEDUP_CHUNK) ∧
    numBulkLookups (allTracks.map (fun x => x.id))
        = (dedupChunks (allTracks.map (fun x => x.id))).length ∧
    DEDUP_CHUNK = 100 ∧
    (t ∈ allTracks → t.id ∈ catalog →
      t ∉ filterNewTracks catalog allTracks) :=
  ⟨dedupChunks_join _, dedupChunks_length_le _, numBulkLookups_eq _, rfl,
   fun hmem hcat => not_mem_filterNewTracks catalog allTracks t hmem hcat⟩

/-- Witness for C2: with the catalog already containing the sample
track's id, the sample track is excluded from the new-records set. -/
theorem claim_C2_dedup_completeness_witness :
    sampleTrack ∉ filterNewTracks ["jamendo-1"] [sampleTrack] :=
  (claim_C2_dedup_completeness ["jamendo-1"] [sampleTrack]
    sampleTrack).2.2.2.2 (by decide) (by decide)

/-- C7: with `DISCOGS_TOKEN` unset, `fetchDiscogs` returns normally (no
throw) with an empty track list and the single explanatory error string,
issues no page request, and leaves the adapter state untouched. -/
theorem claim_C7_missing_token (san : TrackRecord → TrackRecord)
    (state : DiscogsState) (env : String → Nat → FetchOutcome DiscogsRaw) :
    fetchDiscogs san none state env
      = (⟨"discogs", [], ["DISCOGS_TOKEN not set"]⟩, state, []) := rfl

/-- C8: in dry-run mode the orchestrator performs no durable effects —
no `uploadAllTrackAssets` call and no `batchWriteTracks` call — while
fetch accounting, validation and the dedup filter (against the empty
existing-id set) still run and produce the write-stage list. -/
theorem claim_C8_dry_run (catalog : Catalog) (sr : SourceResult)
    (env : AssetEnv) :
    (mainRun true catalog sr env).effects = [] ∧
    (mainRun true catalog sr env).tracksToWrite
      = (sr.tracks.filter validateTrack).filter
          (fun t => !(([] : List String).contains t.id)) ∧
    (mainRun true catalog sr env).stats.fetched = sr.tracks.length ∧
    (mainRun true catalog sr env).stats.errors = sr.errors.length :=
  ⟨rfl, rfl, rfl, rfl⟩

/-- Scenario item 1 (§8): valid, already present in the catalog. -/
def scenarioT1 : TrackRecord :=
  { id := "jamendo-1", title := "One", artist := "A1",
    artistId := "jamendo-a1", album := "Alb", albumId := "jamendo-alb",
    duration := 100, artwork := "http://img/1.jpg",
    audioUrl := "http://audio/1.mp3", genre := "rock", license := "CC" }

/-- Scenario item 2 (§8): no audio and no artwork. -/
def scenarioT2 : TrackRecord :=
  { id := "jamendo-2", title := "Two", artist := "A2",
    artistId := "jamendo-a2", album := "Alb", albumId := "jamendo-alb",
    duration := 100, artwork := "", audioUrl := "",
    genre := "rock", license := "CC" }

/-- Scenario item 3 (§8): valid and new. -/
def scenarioT3 : TrackRecord :=
  { id := "jamendo-3", title := "Three", artist := "A3",
    artistId := "jamendo-a3", album := "Alb", albumId := "jamendo-alb",
    duration := 100, artwork := "http://img/3.jpg",
    audioUrl := "http://audio/3.mp3", genre := "rock", license := "CC" }

/-- The §8 scenario source result: three raw items from one partition. -/
def scenarioSR : SourceResult :=
  { sourceName := "jamendo", tracks := [scenarioT1, scenarioT2, scenarioT3],
    errors := [] }

/-- C6: in the §8 scenario (three fetched items, item 2 dropped by
validation, item 1's id already in the catalog), the summary reports
fetched = 3, new = 1, duplicate = 1 with no errors, and only item 3's
record is handed to the write stage — item 2 is counted neither as new
nor as duplicate. -/
theorem claim_C6_scenario (env : AssetEnv) :
    (mainRun false ["jamendo-1"] scenarioSR env).stats
      = ⟨"jamendo", 3, 1, 1, 0⟩ ∧
    (mainRun false ["jamendo-1"] scenarioSR env).tracksToWrite.map
        (fun t => t.id) = ["jamendo-3"] := by
  constructor
  · rfl
  · have h2 : (mainRun false ["jamendo-1"] scenarioSR env).tracksToWrite
        = uploadAllTrackAssets env [scenarioT3] := rfl
    rw [h2, uploadAllTrackAssets_eq_map]
    simp only [List.map_cons, List.map_nil, List.map_map, Function.comp]
    rw [processTrack_id]
    rfl

theorem contentTypes_sel_ne (i : Nat) :
    CONTENT_TYPES[(i + 0) % CONTENT_TYPES.length]!
      ≠ CONTENT_TYPES[(i + 1) % CONTENT_TYPES.length]! := by
  have hl : CONTENT_TYPES.length = 3 := rfl
  have h3 : i % 3 = 0 ∨ i % 3 = 1 ∨ i % 3 = 2 := by omega
  rcases h3 with h | h | h
  · have e0 : (i + 0) % 3 = 0 := by omega
    have e1 : (i + 1) % 3 = 1 := by omega
    rw [hl, e0, e1]
    decide
  · have e0 : (i + 0) % 3 = 1 := by omega
    have e1 : (i + 1) % 3 = 2 := by omega
    rw [hl, e0, e1]
    decide
  · have e0 : (i + 0) % 3 = 2 := by omega
    have e1 : (i + 1) % 3 = 0 := by omega
    rw [hl, e0, e1]
    decide

/-- C4: for every adapter partition processed in a run, an empty page
sets the partition's stored offset to `0`, a successfully processed
non-empty page advances it by the adapter's page size (50 for ccMixter
and Discogs, 100 for MusicBrainz), and an HTTP failure leaves the offset
map unchanged, records an error string, and — shown on `fetchCCMixter` —
does not prevent the run's remaining partition from being processed. -/
theorem claim_C4_partition_offsets (san : TrackRecord → TrackRecord)
    (acc : AdapterAcc) (part : String) (status : Nat) :
    ((ccmixterStep san acc part (.page [])).offsets part = 0 ∧
     (∀ r rs, (ccmixterStep san acc part (.page (r :: rs))).offsets part
        = acc.offsets part + ccmixterPageSize) ∧
     (ccmixterStep san acc part (.httpError status)).offsets = acc.offsets ∧
     (ccmixterStep san acc part (.httpError status)).errors
        = acc.errors ++ ["HTTP " ++ toString status ++ " on type " ++ part]) ∧
    ((mbStep san acc part (.page [])).offsets part = 0 ∧
     (∀ r rs, (mbStep san acc part (.page (r :: rs))).offsets part
        = acc.offsets part + mbPageSize) ∧
     (mbStep san acc part (.httpError status)).offsets = acc.offsets ∧
     (mbStep san acc part (.httpError status)).errors
        = acc.errors ++ ["HTTP " ++ toString status ++ " on tag " ++ part]) ∧
    ((discogsStep san acc part (.page [])).offsets part = 0 ∧
     (∀ r rs, (discogsStep san acc part (.page (r :: rs))).offsets part
        = acc.offsets part + discogsPageSize) ∧
     (discogsStep san acc part (.httpError status)).offsets = acc.offsets ∧
     (discogsStep san acc part (.httpError status)).errors
        = acc.errors ++
            ["HTTP " ++ toString status ++ " on search \"" ++ part ++ "\""]) ∧
    (∀ (state : CCMixterState) (env : String → Nat → FetchOutcome CCRaw)
       (r : CCRaw) (rs : List CCRaw),
      env (CONTENT_TYPES[(state.contentTypeIndex + 0) % CONTENT_TYPES.length]!)
          (state.offsetByType
            (CONTENT_TYPES[(state.contentTypeIndex + 0) % CONTENT_TYPES.length]!))
        = .httpError status →
      env (CONTENT_TYPES[(state.contentTypeIndex + 1) % CONTENT_TYPES.length]!)
          (state.offsetByType
            (CONTENT_TYPES[(state.contentTypeIndex + 1) % CONTENT_TYPES.length]!))
        = .page (r :: rs) →
      (fetchCCMixter san state env).2.offsetByType
          (CONTENT_TYPES[(state.contentTypeIndex + 1) % CONTENT_TYPES.length]!)
        = state.offsetByType
            (CONTENT_TYPES[(state.contentTypeIndex + 1) % CONTENT_TYPES.length]!)
          + ccmixterPageSize ∧
      (fetchCCMixter san state env).2.offsetByType
          (CONTENT_TYPES[(state.contentTypeIndex + 0) % CONTENT_TYPES.length]!)
        = state.offsetByType
            (CONTENT_TYPES[(state.contentTypeIndex + 0) % CONTENT_TYPES.length]!) ∧
      (fetchCCMixter san state env).1.errors
        = ["HTTP " ++ toString status ++ " on type "
            ++ CONTENT_TYPES[(state.contentTypeIndex + 0) % CONTENT_TYPES.length]!]) := by
  refine ⟨⟨?_, ?_, rfl, rfl⟩, ⟨?_, ?_, rfl, rfl⟩, ⟨?_, ?_, rfl, rfl⟩, ?_⟩
  · simp [ccmixterStep]
  · intro r rs
    simp [ccmixterStep]
  · simp [mbStep]
  · intro r rs
    simp [mbStep]
  · simp [discogsStep]
  · intro r rs
    simp [discogsStep]
  · intro state env r rs h0 h1
    have hne := contentTypes_sel_ne state.contentTypeIndex
    have hne2 : CONTENT_TYPES[state.contentTypeIndex % CONTENT_TYPES.length]!
        ≠ CONTENT_TYPES[(state.contentTypeIndex + 1) % CONTENT_TYPES.length]! := by
      simpa using hne
    simp only [fetchCCMixter, h0, h1, ccmixterStep]
    refine ⟨by simp, by simp [hne2], by simp⟩

/-- A concrete raw ccMixter record used in the C4 witness. -/
def ccSampleRaw : CCRaw :=
  { id := "10", upload_id := "10", name := "N", artist := "Ar",
    artist_id := "5", duration := 100, imagesLarge := "http://img/l.jpg",
    imagesMedium := "" }

/-- Oracle used in the C4 witness: HTTP 500 for the first content type
(`"opsample"`), a one-record page for the others. -/
def ccEnvWitness : String → Nat → FetchOutcome CCRaw :=
  fun t _ => if t = "opsample" then .httpError 500 else .page [ccSampleRaw]

/-- Witness for C4: starting at rotation index 0 with every offset 7, an
HTTP 500 on `"opsample"` leaves its offset at 7 while `"remix"` is still
fetched and its offset advanced to 57. -/
theorem claim_C4_partition_offsets_witness :
    (fetchCCMixter (fun t => t) ⟨0, fun _ => 7⟩ ccEnvWitness).2.offsetByType
        "remix" = 57 ∧
    (fetchCCMixter (fun t => t) ⟨0, fun _ => 7⟩ ccEnvWitness).2.offsetByType
        "opsample" = 7 ∧
    (fetchCCMixter (fun t => t) ⟨0, fun _ => 7⟩ ccEnvWitness).1.errors
      = ["HTTP 500 on type opsample"] := by
  have h := (claim_C4_partition_offsets (fun t => t) ⟨fun _ => 0, [], [], []⟩
      "zz" 500).2.2.2 ⟨0, fun _ => 7⟩ ccEnvWitness ccSampleRaw []
      (by decide) (by decide)
  exact ⟨h.1, h.2.1, h.2.2⟩

/-- C9: in the migration utility's live mode, the Firestore document is
updated only when every reference that needs fixing was successfully
converted (the update then carries exactly the needed fields), and when
any needed conversion fails the document is left unmodified, the failed
counter is incremented by one, and the document id is appended to the
failed-id list. -/
theorem claim_C9_migration_atomicity (conv : String → Option String)
    (doc : TrackDoc) (stats : MigrationStats) :
    ((migrateDoc false conv doc stats).2.isSome = true →
      (strStartsWith doc.artwork "gs://" = true →
        ∃ u, conv doc.artwork = some u) ∧
      (strStartsWith doc.audioUrl "gs://" = true →
        ∃ u, conv doc.audioUrl = some u)) ∧
    (((strStartsWith doc.artwork "gs://" = true ∧ conv doc.artwork = none) ∨
      (strStartsWith doc.audioUrl "gs://" = true ∧ conv doc.audioUrl = none)) →
      (migrateDoc false conv doc stats).2 = none ∧
      (migrateDoc false conv doc stats).1.failed = stats.failed + 1 ∧
      (migrateDoc false conv doc stats).1.failedIds
        = stats.failedIds ++ [doc.docId]) := by
  unfold migrateDoc
  cases haw : strStartsWith doc.artwork "gs://" with
  | false =>
    cases hau : strStartsWith doc.audioUrl "gs://" with
    | false =>
      refine ⟨fun h => ?_, fun hd => ?_⟩
      · simp at h
      · rcases hd with ⟨hf, _⟩ | ⟨hf, _⟩ <;> exact nomatch hf
    | true =>
      cases hc : conv doc.audioUrl with
      | none =>
        refine ⟨fun h => ?_, fun _ => ?_⟩
        · simp at h
        · simp
      | some u =>
        refine ⟨fun _ => ⟨fun hf => (nomatch hf), fun _ => ⟨u, rfl⟩⟩,
          fun hd => ?_⟩
        rcases hd with ⟨hf, _⟩ | ⟨_, hn⟩
        · exact nomatch hf
        · exact nomatch hn
  | true =>
    cases hau : strStartsWith doc.audioUrl "gs://" with
    | false =>
      cases hc : conv doc.artwork with
      | none =>
        refine ⟨fun h => ?_, fun _ => ?_⟩
        · simp at h
        · simp
      | some u =>
        refine ⟨fun _ => ⟨fun _ => ⟨u, rfl⟩, fun hf => (nomatch hf)⟩,
          fun hd => ?_⟩
        rcases hd with ⟨_, hn⟩ | ⟨hf, _⟩
        · exact nomatch hn
        · exact nomatch hf
    | true =>
      cases hc : conv doc.artwork with
      | none =>
        refine ⟨fun h => ?_, fun _ => ?_⟩
        · simp at h
        · simp
      | some u =>
        cases hc2 : conv doc.audioUrl with
        | none =>
          refine ⟨fun h => ?_, fun _ => ?_⟩
          · simp at h
          · simp
        | some u2 =>
          refine ⟨fun _ => ⟨fun _ => ⟨u, rfl⟩, fun _ => ⟨u2, rfl⟩⟩,
            fun hd => ?_⟩
          rcases hd with ⟨_, hn⟩ | ⟨_, hn⟩ <;> exact nomatch hn

/-- Witness for C9: a document whose artwork needs fixing, with a
conversion oracle that always fails: no update, failed count 1, the id
recorded. -/
theorem claim_C9_migration_atomicity_witness :
    (migrateDoc false (fun _ => none) ⟨"d1", "gs://b/a.jpg", ""⟩
        ⟨0, 0, 0, 0, []⟩).2 = none ∧
    (migrateDoc false (fun _ => none) ⟨"d1", "gs://b/a.jpg", ""⟩
        ⟨0, 0, 0, 0, []⟩).1.failed = 0 + 1 ∧
    (migrateDoc false (fun _ => none) ⟨"d1", "gs://b/a.jpg", ""⟩
        ⟨0, 0, 0, 0, []⟩).1.failedIds = [] ++ ["d1"] :=
  (claim_C9_migration_atomicity (fun _ => none) ⟨"d1", "gs://b/a.jpg", ""⟩
    ⟨0, 0, 0, 0, []⟩).2 (Or.inl ⟨by decide, rfl⟩)

end OpenTune
